import Mathlib

/-!
Verification of the air-quality dashboard core (`dashboard_calidad_aire.py`).

The embedding models the repository's own logic, not its external
collaborators: readings are rows already fetched from the store, AQI values
are rationals (`Option ℚ`, `none` standing for SQL NULL / pandas NaN),
timestamps are naturals.  Pandas semantics that matter are embedded
explicitly: `mean`/`max` skip nulls, `value_counts` drops nulls,
`nunique` counts distinct values, `sort_values` is modelled as a stable
ascending sort, and `groupby(...).last()` takes the last non-null entry of
each column within a group.
-/

namespace AirQuality

/-- One row of the `mediciones` result set, as selected by
`fetch_latest_readings`: id, fecha, ciudad, estado, latitud, longitud,
contaminante, aqi, categoria.  `aqi` and `categoria` are nullable. -/
structure Reading where
  id : Nat
  fecha : Nat
  ciudad : String
  estado : String
  contaminante : String
  latitud : ℚ
  longitud : ℚ
  aqi : Option ℚ
  categoria : Option String
deriving DecidableEq, Repr

/-! ## Category Classifier (`get_aqi_category_info`) -/

/-- `get_aqi_category_info(aqi)`: `none` models the `pd.isna(aqi) or aqi is
None` branch; otherwise the if/elif chain on `aqi` with upper-inclusive
breakpoints 50/100/150/200/300.  Returns (name, color, symbol). -/
def get_aqi_category_info (aqi : Option ℚ) : String × String × String :=
  match aqi with
  | none => ("Unknown", "#808080", "⚪")
  | some a =>
    if a ≤ 50 then ("Good", "#00E400", "🟢")
    else if a ≤ 100 then ("Moderate", "#FFFF00", "🟡")
    else if a ≤ 150 then ("Unhealthy for Sensitive Groups", "#FF7E00", "🟠")
    else if a ≤ 200 then ("Unhealthy", "#FF0000", "🔴")
    else if a ≤ 300 then ("Very Unhealthy", "#8F3F97", "🟣")
    else ("Hazardous", "#7E0023", "🟤")

/-- Severity rank of a classifier result, ordered
Good < Moderate < Unhealthy for Sensitive Groups < Unhealthy
< Very Unhealthy < Hazardous; Unknown ranks 0. -/
def severityRank (info : String × String × String) : Nat :=
  if info.1 = "Good" then 1
  else if info.1 = "Moderate" then 2
  else if info.1 = "Unhealthy for Sensitive Groups" then 3
  else if info.1 = "Unhealthy" then 4
  else if info.1 = "Very Unhealthy" then 5
  else if info.1 = "Hazardous" then 6
  else 0

/-- The seven rows of the §4.1 table, as the classifier produces them. -/
def categoryTable : List (String × String × String) :=
  [("Unknown", "#808080", "⚪"),
   ("Good", "#00E400", "🟢"),
   ("Moderate", "#FFFF00", "🟡"),
   ("Unhealthy for Sensitive Groups", "#FF7E00", "🟠"),
   ("Unhealthy", "#FF0000", "🔴"),
   ("Very Unhealthy", "#8F3F97", "🟣"),
   ("Hazardous", "#7E0023", "🟤")]

/-! ## Filter Engine (the dashboard filter block) -/

/-- The dashboard filter block: starting from the fetched rows, keep rows
with `estado == estado_seleccionado` unless the selector is the sentinel
"Todos", then likewise for `contaminante`. -/
def applyFilters (rows : List Reading) (estadoSel contaminanteSel : String) :
    List Reading :=
  let df1 := if estadoSel = "Todos" then rows
             else rows.filter (fun r => r.estado == estadoSel)
  if contaminanteSel = "Todos" then df1
  else df1.filter (fun r => r.contaminante == contaminanteSel)

theorem applyFilters_all_all (rows : List Reading) :
    applyFilters rows "Todos" "Todos" = rows := rfl

/-- Both filters at once equal one combined filter over the original rows. -/
theorem applyFilters_eq_filter (rows : List Reading) (e c : String)
    (he : e ≠ "Todos") (hc : c ≠ "Todos") :
    applyFilters rows e c =
      rows.filter (fun r => r.estado == e && r.contaminante == c) := by
  simp only [applyFilters, he, hc, if_neg, ite_false, List.filter_filter]
  exact List.filter_congr (fun r _ => by rw [Bool.and_comm])

/-! ## Aggregator (the metrics block and category distribution) -/

/-- The non-null AQI values of a row set, in row order.  Pandas numeric
aggregations (`mean`, `max`) skip NaN, so they range over this list. -/
def nonNullAqi (rows : List Reading) : List ℚ := rows.filterMap (·.aqi)

/-- `df_filtered['aqi'].mean()`: arithmetic mean of the non-null AQI
values, NaN (here `none`) when there are none. -/
def avg_aqi (rows : List Reading) : Option ℚ :=
  if (nonNullAqi rows).isEmpty then none
  else some ((nonNullAqi rows).sum / (nonNullAqi rows).length)

/-- `df_filtered['aqi'].max()`: maximum of the non-null AQI values, NaN
(here `⊥`) when there are none. -/
def max_aqi (rows : List Reading) : WithBot ℚ := (nonNullAqi rows).maximum

/-- `len(df_filtered)`. -/
def total_lecturas (rows : List Reading) : Nat := rows.length

/-- `Series.nunique()`: number of distinct (non-null) values. -/
def nunique (l : List String) : Nat := l.dedup.length

/-- The five headline metrics of the dashboard's metrics block:
AQI Promedio, AQI Máximo, Total Lecturas, Ciudades, Estados. -/
structure SummaryView where
  avgAqi : Option ℚ
  maxAqi : WithBot ℚ
  totalLecturas : Nat
  ciudades : Nat
  estados : Nat
deriving DecidableEq, Repr

/-- The metrics block applied to the filtered rows. -/
def summaryOf (rows : List Reading) : SummaryView :=
  { avgAqi := avg_aqi rows
    maxAqi := max_aqi rows
    totalLecturas := total_lecturas rows
    ciudades := nunique (rows.map (·.ciudad))
    estados := nunique (rows.map (·.estado)) }

/-- The non-null category labels of the rows, in row order
(`value_counts` drops NaN). -/
def categoriaList (rows : List Reading) : List String :=
  rows.filterMap (·.categoria)

/-- `df_filtered['categoria'].value_counts()` as (label, count) pairs, one
per distinct non-null label.  `value_counts` orders by descending count;
the order is irrelevant for the claims, so first-occurrence order is
used. -/
def categoria_counts (rows : List Reading) : List (String × Nat) :=
  (categoriaList rows).dedup.map (fun c => (c, (categoriaList rows).count c))

/-- `pct = count / len(df_filtered) * 100`. -/
def pct (rows : List Reading) (count : Nat) : ℚ :=
  (count : ℚ) / (total_lecturas rows) * 100

/-- A `filterMap` by an everywhere-defined projection keeps the length. -/
theorem length_filterMap_of_isSome {α β : Type} (f : α → Option β)
    (l : List α) (h : ∀ x ∈ l, (f x).isSome) :
    (l.filterMap f).length = l.length := by
  induction l with
  | nil => rfl
  | cons x xs ih =>
    have hx := h x (by simp)
    obtain ⟨b, hb⟩ := Option.isSome_iff_exists.mp hx
    simp [List.filterMap_cons, hb, ih (fun y hy => h y (by simp [hy]))]

/-- C1: `get_aqi_category_info` maps null to Unknown and each numeric AQI to
the §4.1 band with upper-inclusive boundaries, returning the table's name,
color and symbol. -/
theorem C1_classifier_bands (a : ℚ) :
    get_aqi_category_info none = ("Unknown", "#808080", "⚪")
    ∧ (a ≤ 50 → get_aqi_category_info (some a) = ("Good", "#00E400", "🟢"))
    ∧ (50 < a → a ≤ 100 →
        get_aqi_category_info (some a) = ("Moderate", "#FFFF00", "🟡"))
    ∧ (100 < a → a ≤ 150 →
        get_aqi_category_info (some a) =
          ("Unhealthy for Sensitive Groups", "#FF7E00", "🟠"))
    ∧ (150 < a → a ≤ 200 →
        get_aqi_category_info (some a) = ("Unhealthy", "#FF0000", "🔴"))
    ∧ (200 < a → a ≤ 300 →
        get_aqi_category_info (some a) = ("Very Unhealthy", "#8F3F97", "🟣"))
    ∧ (300 < a →
        get_aqi_category_info (some a) = ("Hazardous", "#7E0023", "🟤")) := by
  refine ⟨rfl, fun h1 => ?_, fun h1 h2 => ?_, fun h1 h2 => ?_,
    fun h1 h2 => ?_, fun h1 h2 => ?_, fun h1 => ?_⟩ <;>
  · simp only [get_aqi_category_info]
    split_ifs <;> first | rfl | linarith

/-- Witness for C1 at the boundary values named by the claim:
50 is Good, 50.01 is Moderate, 300 is Very Unhealthy, 300.01 is Hazardous,
null is Unknown. -/
theorem C1_classifier_bands_witness :
    get_aqi_category_info (some 50) = ("Good", "#00E400", "🟢")
    ∧ get_aqi_category_info (some 50.01) = ("Moderate", "#FFFF00", "🟡")
    ∧ get_aqi_category_info (some 300) = ("Very Unhealthy", "#8F3F97", "🟣")
    ∧ get_aqi_category_info (some 300.01) = ("Hazardous", "#7E0023", "🟤")
    ∧ get_aqi_category_info none = ("Unknown", "#808080", "⚪") :=
  ⟨(C1_classifier_bands 50).2.1 (by norm_num),
   (C1_classifier_bands 50.01).2.2.1 (by norm_num) (by norm_num),
   (C1_classifier_bands 300).2.2.2.2.2.1 (by norm_num) (by norm_num),
   (C1_classifier_bands 300.01).2.2.2.2.2.2 (by norm_num),
   (C1_classifier_bands 0).1⟩

/-- C2: with both selectors "Todos" the filter block is the identity;
region-then-pollutant equals both-at-once equals pollutant-then-region;
the output is a sublist of the input (relative order preserved); and
membership in the combined result is the intersection of memberships in
the two single-filter results. -/
theorem C2_filter_engine (R : List Reading) (e c : String) :
    applyFilters R "Todos" "Todos" = R
    ∧ applyFilters (applyFilters R e "Todos") "Todos" c = applyFilters R e c
    ∧ applyFilters (applyFilters R "Todos" c) e "Todos" = applyFilters R e c
    ∧ (applyFilters R e c).Sublist R
    ∧ (∀ r, r ∈ applyFilters R e c ↔
        r ∈ applyFilters R e "Todos" ∧ r ∈ applyFilters R "Todos" c) := by
  refine ⟨rfl, ?_, ?_, ?_, fun r => ?_⟩
  · by_cases he : e = "Todos" <;> by_cases hc : c = "Todos" <;>
      simp [applyFilters, he, hc]
  · by_cases he : e = "Todos" <;> by_cases hc : c = "Todos" <;>
      simp only [applyFilters, he, hc, if_pos, if_neg, ite_true, ite_false,
        List.filter_filter] <;>
      first
      | rfl
      | simp
      | exact List.filter_congr (fun r _ => by rw [Bool.and_comm])
  · by_cases he : e = "Todos" <;> by_cases hc : c = "Todos" <;>
      simp only [applyFilters, he, hc, ite_true, ite_false] <;>
      first
      | exact List.Sublist.refl _
      | exact List.filter_sublist _
      | exact (List.filter_sublist _).trans (List.filter_sublist _)
  · by_cases he : e = "Todos" <;> by_cases hc : c = "Todos" <;>
      simp [applyFilters, he, hc, List.mem_filter] <;> tauto

/-- Ranks of the classifier's numeric bands, as a single numeric if-chain. -/
theorem severityRank_some (a : ℚ) :
    severityRank (get_aqi_category_info (some a)) =
      if a ≤ 50 then 1 else if a ≤ 100 then 2 else if a ≤ 150 then 3
      else if a ≤ 200 then 4 else if a ≤ 300 then 5 else 6 := by
  simp only [get_aqi_category_info]
  split_ifs <;> decide

/-- C9: the classifier always returns one of the seven table rows (totality
over numbers and null), and its severity rank is monotonically
non-decreasing in the numeric input. -/
theorem C9_classifier_total_monotone (v1 v2 : ℚ) (h : v1 ≤ v2) :
    (∀ x : Option ℚ, get_aqi_category_info x ∈ categoryTable)
    ∧ severityRank (get_aqi_category_info (some v1)) ≤
        severityRank (get_aqi_category_info (some v2)) := by
  constructor
  · intro x
    match x with
    | none => simp [get_aqi_category_info, categoryTable]
    | some a =>
      simp only [get_aqi_category_info, categoryTable]
      split_ifs <;> simp
  · rw [severityRank_some, severityRank_some]
    split_ifs <;> try norm_num
    all_goals linarith

/-- Witness for C9 at v1 = 10, v2 = 500. -/
theorem C9_classifier_total_monotone_witness :
    (∀ x : Option ℚ, get_aqi_category_info x ∈ categoryTable)
    ∧ severityRank (get_aqi_category_info (some 10)) ≤
        severityRank (get_aqi_category_info (some 500)) :=
  C9_classifier_total_monotone 10 500 (by norm_num)

/-- C3: on a non-empty filtered set with at least one non-null AQI, the
metrics block's mean is the arithmetic mean of the non-null AQI values
(exactly, hence within 1e-6), its max is attained and dominates every
non-null AQI value, the reading count splits over null and non-null AQI
rows, and the city/state counts are the distinct-value counts. -/
theorem C3_aggregator_overall_metrics (rows : List Reading)
    (hne : rows ≠ []) (haqi : nonNullAqi rows ≠ []) :
    (∃ m : ℚ, (summaryOf rows).avgAqi = some m ∧
      m * (nonNullAqi rows).length = (nonNullAqi rows).sum)
    ∧ (∃ M : ℚ, (summaryOf rows).maxAqi = (M : WithBot ℚ) ∧
        M ∈ nonNullAqi rows ∧ ∀ x ∈ nonNullAqi rows, x ≤ M)
    ∧ (summaryOf rows).totalLecturas =
        (rows.filter (fun r => r.aqi.isSome)).length +
          (rows.filter (fun r => r.aqi.isNone)).length
    ∧ (summaryOf rows).ciudades = (rows.map (·.ciudad)).toFinset.card
    ∧ (summaryOf rows).estados = (rows.map (·.estado)).toFinset.card := by
  refine ⟨?_, ?_, ?_, ?_, ?_⟩
  · refine ⟨(nonNullAqi rows).sum / (nonNullAqi rows).length, ?_, ?_⟩
    · simp [summaryOf, avg_aqi, List.isEmpty_iff, haqi]
    · have hlen : ((nonNullAqi rows).length : ℚ) ≠ 0 :=
        Nat.cast_ne_zero.mpr (Nat.pos_iff_ne_zero.mp (List.length_pos.mpr haqi))
      exact div_mul_cancel₀ _ hlen
  · have hbot : (nonNullAqi rows).maximum ≠ ⊥ :=
      List.maximum_ne_bot_of_ne_nil haqi
    obtain ⟨M, hM⟩ := WithBot.ne_bot_iff_exists.mp hbot
    exact ⟨M, hM.symm, List.maximum_mem hM.symm,
      fun x hx => by
        have := List.le_maximum_of_mem hx hM.symm
        exact_mod_cast this⟩
  · simpa [summaryOf, total_lecturas, Option.not_isSome] using
      List.length_eq_length_filter_add (l := rows) (fun r => r.aqi.isSome)
  · exact (List.card_toFinset _).symm
  · exact (List.card_toFinset _).symm

/-- A concrete two-city row set used by the C3 witness. -/
def exRowsC3 : List Reading :=
  [{ id := 1, fecha := 1, ciudad := "Austin", estado := "TX",
     contaminante := "O3", latitud := 30, longitud := -97,
     aqi := some 45, categoria := some "Good" },
   { id := 2, fecha := 2, ciudad := "Dallas", estado := "TX",
     contaminante := "O3", latitud := 32, longitud := -96,
     aqi := some 55, categoria := some "Moderate" }]

/-- Witness for C3 on `exRowsC3`. -/
theorem C3_aggregator_overall_metrics_witness :
    (∃ m : ℚ, (summaryOf exRowsC3).avgAqi = some m ∧
      m * (nonNullAqi exRowsC3).length = (nonNullAqi exRowsC3).sum)
    ∧ (∃ M : ℚ, (summaryOf exRowsC3).maxAqi = (M : WithBot ℚ) ∧
        M ∈ nonNullAqi exRowsC3 ∧ ∀ x ∈ nonNullAqi exRowsC3, x ≤ M)
    ∧ (summaryOf exRowsC3).totalLecturas =
        (exRowsC3.filter (fun r => r.aqi.isSome)).length +
          (exRowsC3.filter (fun r => r.aqi.isNone)).length
    ∧ (summaryOf exRowsC3).ciudades =
        (exRowsC3.map (·.ciudad)).toFinset.card
    ∧ (summaryOf exRowsC3).estados =
        (exRowsC3.map (·.estado)).toFinset.card :=
  C3_aggregator_overall_metrics exRowsC3 (by decide) (by decide)

/-- Two rows, one with a null category label, for the C4 counterexample. -/
def c4Rows : List Reading :=
  [{ id := 1, fecha := 1, ciudad := "Austin", estado := "TX",
     contaminante := "O3", latitud := 30, longitud := -97,
     aqi := some 45, categoria := some "Good" },
   { id := 2, fecha := 2, ciudad := "Austin", estado := "TX",
     contaminante := "O3", latitud := 30, longitud := -97,
     aqi := some 55, categoria := none }]

/-- C4 counterexample: with a null category label present, the category
percentages sum to 50, not 100 — `value_counts` drops the null-label row
while the divisor still counts it. -/
theorem C4_category_distribution_counterexample :
    ((categoria_counts c4Rows).map (fun p => pct c4Rows p.2)).sum = 50 ∧
    (50 : ℚ) ≠ 100 := by
  constructor
  · have h : categoria_counts c4Rows = [("Good", 1)] := by
      simp [categoria_counts, categoriaList, c4Rows, List.filterMap_cons]
    rw [h]
    simp [pct, total_lecturas, c4Rows]
    norm_num
  · norm_num

/-- C4 (amended): each (label, count) pair of the distribution carries the
label's row count and the percentage count/len·100; the percentages sum to
100·(number of rows with a non-null label)/(row count), hence to exactly
100% when every row carries a non-null category label. -/
theorem C4_category_distribution (rows : List Reading) (hne : rows ≠ []) :
    (∀ p ∈ categoria_counts rows,
        p.2 = (categoriaList rows).count p.1 ∧
        pct rows p.2 = (p.2 : ℚ) / rows.length * 100)
    ∧ ((categoria_counts rows).map (fun p => pct rows p.2)).sum =
        100 * (categoriaList rows).length / rows.length
    ∧ ((∀ r ∈ rows, r.categoria.isSome) →
        ((categoria_counts rows).map (fun p => pct rows p.2)).sum = 100) := by
  have hN : ((rows.length : ℚ)) ≠ 0 :=
    Nat.cast_ne_zero.mpr (Nat.pos_iff_ne_zero.mp (List.length_pos.mpr hne))
  have hsum : ((categoria_counts rows).map (fun p => pct rows p.2)).sum =
      100 * (categoriaList rows).length / rows.length := by
    have h1 : ((categoria_counts rows).map (fun p => pct rows p.2)).sum =
        ((categoriaList rows).dedup.map
          (fun c => (((categoriaList rows).count c : ℚ) *
            (100 / rows.length)))).sum := by
      rw [categoria_counts, List.map_map]
      refine congrArg _ (List.map_congr_left fun c _ => ?_)
      simp only [Function.comp_apply, pct, total_lecturas]
      ring
    have h2 : ((categoriaList rows).dedup.map
          (fun c => ((categoriaList rows).count c : ℚ))).sum =
        ((categoriaList rows).length : ℚ) := by
      have h3 : ((categoriaList rows).dedup.map
            (fun c => ((categoriaList rows).count c : ℚ))) =
          (((categoriaList rows).dedup.map
            (fun c => (categoriaList rows).count c)).map
              (fun n : Nat => (n : ℚ))) := by
        rw [List.map_map]; rfl
      rw [h3, ← Nat.cast_list_sum, List.sum_map_count_dedup_eq_length]
    rw [h1, List.sum_map_mul_right, h2]
    ring
  refine ⟨?_, hsum, ?_⟩
  · intro p hp
    obtain ⟨c, _, rfl⟩ := List.mem_map.mp hp
    exact ⟨rfl, rfl⟩
  · intro hall
    have hlen : (categoriaList rows).length = rows.length :=
      length_filterMap_of_isSome _ rows (fun r hr => hall r hr)
    rw [hsum, hlen]
    field_simp

/-- Witness for C4 (amended) on a row set where all labels are present:
the percentages sum to exactly 100. -/
theorem C4_category_distribution_witness :
    ((categoria_counts exRowsC3).map (fun p => pct exRowsC3 p.2)).sum =
      100 :=
  ((C4_category_distribution exRowsC3 (by decide)).2.2) (by decide)

/-! ## Refresh Controller (the dashboard `while True` loop)

One loop iteration fetches the window's rows, breaks with a warning if the
fetch is empty, filters, breaks with a different warning if the filtered
set is empty, otherwise renders the summary; after rendering it breaks
when auto-refresh is off, else sleeps and reruns. -/

/-- Outcome of one pass of the loop body. -/
inductive CycleOutcome where
  | emptyFetch
  | emptyFiltered
  | published (s : SummaryView)
deriving DecidableEq, Repr

/-- One pass of the loop body over the fetched rows. -/
def runCycle (df : List Reading) (estadoSel contaminanteSel : String) :
    CycleOutcome :=
  if df.isEmpty then .emptyFetch
  else
    let dfFiltered := applyFilters df estadoSel contaminanteSel
    if dfFiltered.isEmpty then .emptyFiltered
    else .published (summaryOf dfFiltered)

/-- Whether the loop breaks after an outcome: the two empty outcomes break
unconditionally; a published cycle breaks exactly when auto-refresh is
off. -/
def cycleHalts (o : CycleOutcome) (autoRefresh : Bool) : Bool :=
  match o with
  | .emptyFetch => true
  | .emptyFiltered => true
  | .published _ => !autoRefresh

/-- The loop run for at most `fuel` iterations starting at tick `i`;
`fetches i` is what `fetch_latest_readings` returns on tick `i`.  Returns
the outcomes of the executed cycles in order. -/
def runLoop (fetches : Nat → List Reading)
    (estadoSel contaminanteSel : String) (autoRefresh : Bool) :
    Nat → Nat → List CycleOutcome
  | 0, _ => []
  | fuel + 1, i =>
    let o := runCycle (fetches i) estadoSel contaminanteSel
    o :: (if cycleHalts o autoRefresh then []
          else runLoop fetches estadoSel contaminanteSel autoRefresh fuel
            (i + 1))

/-- C5: an empty fetch or an empty filtered set makes the first cycle the
only one, with no Summary View; a non-empty filtered set publishes exactly
one Summary View in its cycle; with auto-refresh off the loop runs exactly
one cycle. -/
theorem C5_refresh_controller (fetches : Nat → List Reading)
    (e c : String) (ar : Bool) (fuel : Nat) :
    (fetches 0 = [] →
      runLoop fetches e c ar (fuel + 1) 0 = [.emptyFetch])
    ∧ (fetches 0 ≠ [] → applyFilters (fetches 0) e c = [] →
        runLoop fetches e c ar (fuel + 1) 0 = [.emptyFiltered])
    ∧ (∀ i, applyFilters (fetches i) e c ≠ [] →
        runCycle (fetches i) e c =
          .published (summaryOf (applyFilters (fetches i) e c)))
    ∧ (ar = false →
        (runLoop fetches e c ar (fuel + 1) 0).length = 1) := by
  refine ⟨?_, ?_, ?_, ?_⟩
  · intro h0
    simp [runLoop, runCycle, h0, cycleHalts]
  · intro h0 hf
    have hne : ¬(fetches 0).isEmpty := by simpa [List.isEmpty_iff] using h0
    simp [runLoop, runCycle, hne, hf, cycleHalts]
  · intro i hne
    have hdf : ¬(fetches i).isEmpty := by
      intro h
      exact hne (by simp [List.isEmpty_iff.mp h, applyFilters])
    simp [runCycle, hdf, List.isEmpty_iff, hne]
  · intro har
    subst har
    simp only [runLoop]
    rcases runCycle (fetches 0) e c with _ | _ | s <;>
      simp [cycleHalts]

/-- Witness for C5: a constantly-empty fetch stream halts after one
emptyFetch cycle; a one-row stream with auto-refresh off runs exactly one
cycle. -/
theorem C5_refresh_controller_witness :
    (runLoop (fun _ => ([] : List Reading)) "Todos" "Todos" true 5 0 =
      [.emptyFetch])
    ∧ (runLoop (fun _ => exRowsC3) "Todos" "Todos" false 5 0).length = 1 :=
  ⟨(C5_refresh_controller (fun _ => []) "Todos" "Todos" true 4).1 rfl,
   (C5_refresh_controller (fun _ => exRowsC3) "Todos" "Todos" false 4).2.2.2
     rfl⟩

/-! ## Prediction Request Builder (`predict_aqi`, ML tab gate, comparison) -/

/-- The single-row feature table model 1 consumes: ciudad, estado,
contaminante, latitud, longitud. -/
structure Row1 where
  ciudad : String
  estado : String
  contaminante : String
  latitud : ℚ
  longitud : ℚ
deriving DecidableEq, Repr

/-- The single-row feature table model 2 consumes: model 1's features plus
categoria and fecha. -/
structure Row2 where
  ciudad : String
  estado : String
  contaminante : String
  latitud : ℚ
  longitud : ℚ
  categoria : String
  fecha : Nat
deriving DecidableEq, Repr

/-- The loaded-models record: a loaded model is a black box that either
returns a numeric prediction or raises (modelled as an error string); an
absent model (`.pkl` file missing) is `none`. -/
structure Models where
  modelo1 : Option (Row1 → Except String ℚ)
  modelo2 : Option (Row2 → Except String ℚ)

/-- A value of the predictions dictionary: a numeric prediction, Python's
`None`, or an error string. -/
inductive PVal where
  | num (q : ℚ)
  | null
  | err (s : String)
deriving DecidableEq, Repr

/-- `data_modelo1` as built inside `predict_aqi`. -/
def data_modelo1 (ciudad estado contaminante : String)
    (latitud longitud : ℚ) : Row1 :=
  ⟨ciudad, estado, contaminante, latitud, longitud⟩

/-- `data_modelo2` as built inside `predict_aqi`: categoria falls back to
"Good" when falsy (Python truthiness: `None` or the empty string), fecha
falls back to `datetime.now()` (a datetime is always truthy). -/
def data_modelo2 (ciudad estado contaminante : String)
    (latitud longitud : ℚ) (now : Nat) (fecha : Option Nat)
    (categoria : Option String) : Row2 :=
  ⟨ciudad, estado, contaminante, latitud, longitud,
   (match categoria with
    | some s => if s = "" then "Good" else s
    | none => "Good"),
   (match fecha with
    | some t => t
    | none => now)⟩

/-- `predict_aqi`: invokes each loaded model inside its own try/except and
accumulates the predictions dictionary in insertion order; an absent model
is skipped entirely. -/
def predict_aqi (models : Models) (ciudad estado contaminante : String)
    (latitud longitud : ℚ) (now : Nat) (fecha : Option Nat)
    (categoria : Option String) : List (String × PVal) :=
  let predictions : List (String × PVal) := []
  let predictions :=
    match models.modelo1 with
    | none => predictions
    | some m =>
      match m (data_modelo1 ciudad estado contaminante latitud longitud) with
      | .ok pred1 => predictions ++ [("modelo1", .num pred1)]
      | .error e =>
          predictions ++ [("modelo1", .null), ("modelo1_error", .err e)]
  let predictions :=
    match models.modelo2 with
    | none => predictions
    | some m =>
      match m (data_modelo2 ciudad estado contaminante latitud longitud
          now fecha categoria) with
      | .ok pred2 => predictions ++ [("modelo2", .num pred2)]
      | .error e =>
          predictions ++ [("modelo2", .null), ("modelo2_error", .err e)]
  predictions

/-- State of the ML tab after its availability gate. -/
inductive MLTab where
  | unavailable
  | ready
deriving DecidableEq, Repr

/-- The ML tab's gate: with both models absent it errors and stops
(`st.stop()`) before any prediction request can be issued. -/
def mlTabGate (models : Models) : MLTab :=
  if models.modelo1.isNone && models.modelo2.isNone then .unavailable
  else .ready

/-- The model-comparison block, reached only when both predictions are
numeric: absolute difference, mean, and the agreement label shown as
"Concordancia". -/
def comparison (pred1 pred2 : ℚ) : ℚ × ℚ × String :=
  let diff := |pred1 - pred2|
  let avg_pred := (pred1 + pred2) / 2
  let agreement :=
    if diff < 10 then "Alta" else if diff < 20 then "Media" else "Baja"
  (diff, avg_pred, agreement)

/-- C6: when model 1 raises and model 2 succeeds, the dictionary reports
model 1's error string (with a null prediction) and still carries model
2's numeric prediction; and whenever both models are absent the ML tab
stops as unavailable before any invocation. -/
theorem C6_prediction_error_isolation (models : Models)
    (ciudad estado contaminante : String) (latitud longitud : ℚ)
    (now : Nat) (m1 : Row1 → Except String ℚ) (m2 : Row2 → Except String ℚ)
    (e : String) (v : ℚ)
    (h1 : models.modelo1 = some m1)
    (h2 : models.modelo2 = some m2)
    (hfail : m1 (data_modelo1 ciudad estado contaminante latitud longitud) =
      .error e)
    (hok : m2 (data_modelo2 ciudad estado contaminante latitud longitud now
      none none) = .ok v) :
    predict_aqi models ciudad estado contaminante latitud longitud now
        none none =
      [("modelo1", .null), ("modelo1_error", .err e), ("modelo2", .num v)]
    ∧ ∀ ms : Models, ms.modelo1 = none → ms.modelo2 = none →
        mlTabGate ms = .unavailable := by
  constructor
  · simp [predict_aqi, h1, h2, hfail, hok]
  · intro ms hm1 hm2
    simp [mlTabGate, hm1, hm2]

/-- Witness for C6 with a model 1 that always raises "boom" and a model 2
that always predicts 42. -/
theorem C6_prediction_error_isolation_witness :
    predict_aqi
        ⟨some (fun _ => .error "boom"), some (fun _ => .ok 42)⟩
        "Austin" "TX" "O3" 30 (-97) 7 none none =
      [("modelo1", .null), ("modelo1_error", .err "boom"),
       ("modelo2", .num 42)]
    ∧ ∀ ms : Models, ms.modelo1 = none → ms.modelo2 = none →
        mlTabGate ms = .unavailable :=
  C6_prediction_error_isolation
    ⟨some (fun _ => .error "boom"), some (fun _ => .ok 42)⟩
    "Austin" "TX" "O3" 30 (-97) 7 (fun _ => .error "boom")
    (fun _ => .ok 42) "boom" 42 rfl rfl rfl rfl

/-- C7 counterexample: for predictions 42 and 58 the difference is 16 and
the mean 50, but the agreement label the code produces is the Spanish
string "Media", not "Medium". -/
theorem C7_comparison_counterexample :
    (comparison 42 58).1 = 16 ∧ (comparison 42 58).2.1 = 50 ∧
    (comparison 42 58).2.2 = "Media" ∧ "Media" ≠ "Medium" := by
  refine ⟨?_, ?_, ?_, ?_⟩
  · norm_num [comparison]
  · norm_num [comparison]
  · norm_num [comparison]
  · decide

/-- C7 (amended): the comparison reports the absolute difference and the
mean of the two predictions, and the agreement label is "Alta" (high)
when the difference is strictly below 10, "Media" (medium) when strictly
below 20, and "Baja" (low) otherwise. -/
theorem C7_comparison (A B : ℚ) :
    (comparison A B).1 = |A - B|
    ∧ (comparison A B).2.1 = (A + B) / 2
    ∧ (|A - B| < 10 → (comparison A B).2.2 = "Alta")
    ∧ (10 ≤ |A - B| → |A - B| < 20 → (comparison A B).2.2 = "Media")
    ∧ (20 ≤ |A - B| → (comparison A B).2.2 = "Baja") := by
  refine ⟨rfl, rfl, fun h => ?_, fun h1 h2 => ?_, fun h => ?_⟩ <;>
  · simp only [comparison]
    split_ifs <;> first | rfl | linarith

/-- Witness for C7 (amended) at the claim's own inputs 42 and 58. -/
theorem C7_comparison_witness :
    (comparison 42 58).1 = |(42 : ℚ) - 58|
    ∧ (comparison 42 58).2.1 = ((42 : ℚ) + 58) / 2
    ∧ (comparison 42 58).2.2 = "Media" :=
  ⟨(C7_comparison 42 58).1, (C7_comparison 42 58).2.1,
   (C7_comparison 42 58).2.2.2.1 (by norm_num) (by norm_num)⟩

/-- C10: the predictions dictionary carries keys only for loaded models —
an absent model contributes neither a prediction nor an error entry, a
loaded failing model contributes both a null prediction and an error
string, a loaded succeeding model contributes just its numeric
prediction, and with both models absent the dictionary is empty. -/
theorem C10_prediction_dict_keys (models : Models)
    (ciudad estado contaminante : String) (latitud longitud : ℚ)
    (now : Nat) (fecha : Option Nat) (categoria : Option String) :
    (models.modelo1 = none → models.modelo2 = none →
      predict_aqi models ciudad estado contaminante latitud longitud now
        fecha categoria = [])
    ∧ (models.modelo1 = none →
        ∀ p ∈ predict_aqi models ciudad estado contaminante latitud
            longitud now fecha categoria,
          p.1 ≠ "modelo1" ∧ p.1 ≠ "modelo1_error")
    ∧ (models.modelo2 = none →
        ∀ p ∈ predict_aqi models ciudad estado contaminante latitud
            longitud now fecha categoria,
          p.1 ≠ "modelo2" ∧ p.1 ≠ "modelo2_error")
    ∧ (∀ m1, models.modelo1 = some m1 →
        ∀ e, m1 (data_modelo1 ciudad estado contaminante latitud
            longitud) = .error e →
          ("modelo1", PVal.null) ∈ predict_aqi models ciudad estado
              contaminante latitud longitud now fecha categoria ∧
          ("modelo1_error", PVal.err e) ∈ predict_aqi models ciudad estado
              contaminante latitud longitud now fecha categoria)
    ∧ (∀ m1, models.modelo1 = some m1 →
        ∀ v, m1 (data_modelo1 ciudad estado contaminante latitud
            longitud) = .ok v →
          ("modelo1", PVal.num v) ∈ predict_aqi models ciudad estado
              contaminante latitud longitud now fecha categoria)
    ∧ (∀ m2, models.modelo2 = some m2 →
        ∀ e, m2 (data_modelo2 ciudad estado contaminante latitud
            longitud now fecha categoria) = .error e →
          ("modelo2", PVal.null) ∈ predict_aqi models ciudad estado
              contaminante latitud longitud now fecha categoria ∧
          ("modelo2_error", PVal.err e) ∈ predict_aqi models ciudad estado
              contaminante latitud longitud now fecha categoria)
    ∧ (∀ m2, models.modelo2 = some m2 →
        ∀ v, m2 (data_modelo2 ciudad estado contaminante latitud
            longitud now fecha categoria) = .ok v →
          ("modelo2", PVal.num v) ∈ predict_aqi models ciudad estado
              contaminante latitud longitud now fecha categoria) := by
  refine ⟨?_, ?_, ?_, ?_, ?_, ?_, ?_⟩
  · intro h1 h2
    simp [predict_aqi, h1, h2]
  · intro h1 p hp
    rcases hm2 : models.modelo2 with _ | m2
    · simp [predict_aqi, h1, hm2] at hp
    · rcases hr : m2 (data_modelo2 ciudad estado contaminante latitud
          longitud now fecha categoria) with e | v
      · simp [predict_aqi, h1, hm2, hr] at hp
        rcases hp with h | h <;> simp [h]
      · simp [predict_aqi, h1, hm2, hr] at hp
        simp [hp]
  · intro h2 p hp
    rcases hm1 : models.modelo1 with _ | m1
    · simp [predict_aqi, h2, hm1] at hp
    · rcases hr : m1 (data_modelo1 ciudad estado contaminante latitud
          longitud) with e | v
      · simp [predict_aqi, h2, hm1, hr] at hp
        rcases hp with h | h <;> simp [h]
      · simp [predict_aqi, h2, hm1, hr] at hp
        simp [hp]
  · intro m1 h1 e he
    rcases hm2 : models.modelo2 with _ | m2
    · constructor <;> simp [predict_aqi, h1, hm2, he]
    · rcases hr : m2 (data_modelo2 ciudad estado contaminante latitud
          longitud now fecha categoria) with e2 | v2 <;>
        constructor <;> simp [predict_aqi, h1, hm2, he, hr]
  · intro m1 h1 v hv
    rcases hm2 : models.modelo2 with _ | m2
    · simp [predict_aqi, h1, hm2, hv]
    · rcases hr : m2 (data_modelo2 ciudad estado contaminante latitud
          longitud now fecha categoria) with e2 | v2 <;>
        simp [predict_aqi, h1, hm2, hv, hr]
  · intro m2 h2 e he
    rcases hm1 : models.modelo1 with _ | m1
    · constructor <;> simp [predict_aqi, h2, hm1, he]
    · rcases hr : m1 (data_modelo1 ciudad estado contaminante latitud
          longitud) with e1 | v1 <;>
        constructor <;> simp [predict_aqi, h2, hm1, he, hr]
  · intro m2 h2 v hv
    rcases hm1 : models.modelo1 with _ | m1
    · simp [predict_aqi, h2, hm1, hv]
    · rcases hr : m1 (data_modelo1 ciudad estado contaminante latitud
          longitud) with e1 | v1 <;>
        simp [predict_aqi, h2, hm1, hv, hr]

/-- Witness for C10: with both models absent the dictionary is empty;
with a failing model 1 alone both of its entries appear; and with a
failing model 2 alone both of its entries appear. -/
theorem C10_prediction_dict_keys_witness :
    predict_aqi ⟨none, none⟩ "Austin" "TX" "O3" 30 (-97) 7 none none = []
    ∧ ("modelo1", PVal.null) ∈
        predict_aqi ⟨some (fun _ => .error "boom"), none⟩ "Austin" "TX"
          "O3" 30 (-97) 7 none none
    ∧ ("modelo2", PVal.null) ∈
        predict_aqi ⟨none, some (fun _ => .error "crash")⟩ "Austin" "TX"
          "O3" 30 (-97) 7 none none
    ∧ ("modelo2_error", PVal.err "crash") ∈
        predict_aqi ⟨none, some (fun _ => .error "crash")⟩ "Austin" "TX"
          "O3" 30 (-97) 7 none none :=
  ⟨(C10_prediction_dict_keys ⟨none, none⟩ "Austin" "TX" "O3" 30 (-97) 7
      none none).1 rfl rfl,
   ((C10_prediction_dict_keys ⟨some (fun _ => .error "boom"), none⟩
      "Austin" "TX" "O3" 30 (-97) 7 none none).2.2.2.1
      (fun _ => .error "boom") rfl "boom" rfl).1,
   ((C10_prediction_dict_keys ⟨none, some (fun _ => .error "crash")⟩
      "Austin" "TX" "O3" 30 (-97) 7 none none).2.2.2.2.2.1
      (fun _ => .error "crash") rfl "crash" rfl).1,
   ((C10_prediction_dict_keys ⟨none, some (fun _ => .error "crash")⟩
      "Austin" "TX" "O3" 30 (-97) 7 none none).2.2.2.2.2.1
      (fun _ => .error "crash") rfl "crash" rfl).2⟩

/-! ## Latest-per-city snapshot (`df_map`)

`df_map = df_filtered.sort_values('fecha').groupby('ciudad').last()
.reset_index()`.  `sort_values` is embedded as a stable ascending sort
(ties keep the input's relative order, making the groupby winner
deterministic for a fixed input order); `groupby` (`sort=True`) groups by
city with sorted keys; `GroupBy.last()` takes the last non-null entry of
each column within the group. -/

/-- Ascending-by-timestamp order on readings. -/
def fechaLE (a b : Reading) : Prop := a.fecha ≤ b.fecha

instance : DecidableRel fechaLE := fun a b => Nat.decLe a.fecha b.fecha

instance : IsTotal Reading fechaLE := ⟨fun a b => Nat.le_total a.fecha b.fecha⟩

instance : IsTrans Reading fechaLE := ⟨fun _ _ _ hab hbc => Nat.le_trans hab hbc⟩

/-- `df_filtered.sort_values('fecha')` as a stable ascending sort. -/
def sortFecha (rows : List Reading) : List Reading :=
  rows.insertionSort fechaLE

/-- The `groupby('ciudad')` group of one city within the sorted frame,
keeping the sorted frame's relative order. -/
def cityGroup (rows : List Reading) (c : String) : List Reading :=
  (sortFecha rows).filter (fun r => r.ciudad == c)

/-- `GroupBy.last()` on one group: the always-present columns come from
the group's last row, the nullable `aqi`/`categoria` from the last row in
which they are non-null. -/
def groupLast (g : List Reading) : Option Reading :=
  match g.getLast? with
  | none => none
  | some last =>
    some { last with
      aqi := (g.filterMap (·.aqi)).getLast?
      categoria := (g.filterMap (·.categoria)).getLast? }

/-- The group keys of `groupby('ciudad')` (`sort=True`): the distinct
cities, sorted. -/
def cityKeys (rows : List Reading) : List String :=
  ((rows.map (·.ciudad)).dedup).insertionSort (fun a b => a ≤ b)

/-- The map-display snapshot: one entry per city present. -/
def df_map (rows : List Reading) : List Reading :=
  (cityKeys rows).filterMap (fun c => groupLast (cityGroup rows c))

theorem sortFecha_perm (rows : List Reading) :
    List.Perm (sortFecha rows) rows :=
  List.perm_insertionSort fechaLE rows

theorem sortFecha_sorted (rows : List Reading) :
    (sortFecha rows).Pairwise fechaLE :=
  List.sorted_insertionSort fechaLE rows

theorem mem_cityGroup {rows : List Reading} {c : String} {r : Reading} :
    r ∈ cityGroup rows c ↔ r ∈ rows ∧ r.ciudad = c := by
  simp [cityGroup, List.mem_filter, (sortFecha_perm rows).mem_iff]

theorem cityGroup_sorted (rows : List Reading) (c : String) :
    (cityGroup rows c).Pairwise fechaLE :=
  List.Pairwise.filter _ (sortFecha_sorted rows)

/-- In a list ascending by `fecha`, every member's `fecha` is bounded by
the last element's. -/
theorem le_getLast_of_pairwise : ∀ {l : List Reading},
    l.Pairwise fechaLE → ∀ {x last : Reading}, x ∈ l →
    l.getLast? = some last → x.fecha ≤ last.fecha := by
  intro l
  induction l with
  | nil => intro _ x last hx _; cases hx
  | cons y ys ih =>
    intro hp x last hx hl
    rcases ys with _ | ⟨z, zs⟩
    · simp only [List.getLast?_singleton, Option.some.injEq] at hl
      simp only [List.mem_singleton] at hx
      subst hl; subst hx
      exact Nat.le_refl _
    · rw [List.getLast?_cons_cons] at hl
      rcases List.mem_cons.mp hx with rfl | hx'
      · have hlast_mem : last ∈ z :: zs := List.mem_of_getLast?_eq_some hl
        exact (List.pairwise_cons.mp hp).1 last hlast_mem
      · exact ih (List.pairwise_cons.mp hp).2 hx' hl

/-- `filterMap` by an everywhere-defined projection takes the last value
from the last row. -/
theorem getLast?_filterMap_of_isSome {α β : Type} (f : α → Option β) :
    ∀ (l : List α), (∀ x ∈ l, (f x).isSome) →
      (l.filterMap f).getLast? = l.getLast?.bind f := by
  intro l
  induction l with
  | nil => intro _; rfl
  | cons x xs ih =>
    intro h
    obtain ⟨b, hb⟩ := Option.isSome_iff_exists.mp (h x (by simp))
    rcases xs with _ | ⟨y, ys⟩
    · simp [List.filterMap_cons, hb]
    · have hxs := ih (fun z hz => h z (by simp [hz]))
      obtain ⟨v, hv⟩ := Option.isSome_iff_exists.mp (h y (by simp))
      rw [List.filterMap_cons, hb, List.getLast?_cons_cons, ← hxs]
      rcases hfm : (y :: ys).filterMap f with _ | ⟨w, ws⟩
      · rw [List.filterMap_cons, hv] at hfm; cases hfm
      · rw [List.getLast?_cons_cons]

/-- A snapshot entry made for key `c` carries `ciudad = c`. -/
theorem groupLast_ciudad {rows : List Reading} {c : String} {e : Reading}
    (h : groupLast (cityGroup rows c) = some e) : e.ciudad = c := by
  unfold groupLast at h
  rcases hg : (cityGroup rows c).getLast? with _ | last
  · rw [hg] at h; cases h
  · rw [hg] at h
    have hmem : last ∈ cityGroup rows c := List.mem_of_getLast?_eq_some hg
    have hlc : last.ciudad = c := (mem_cityGroup.mp hmem).2
    injection h with h'
    rw [← h']
    exact hlc

/-- Picking the entries of one key out of a keyed `filterMap` yields
exactly that key's entry. -/
theorem filter_filterMap_keys {F : String → Option Reading}
    (hkey : ∀ c' e', F c' = some e' → e'.ciudad = c') :
    ∀ {keys : List String}, keys.Nodup → ∀ {c e}, c ∈ keys →
      F c = some e →
      (keys.filterMap F).filter (fun x => x.ciudad == c) = [e] := by
  intro keys
  induction keys with
  | nil => intro _ c e hc; cases hc
  | cons k ks ih =>
    intro hnd c e hc hFc
    rcases List.mem_cons.mp hc with rfl | hcks
    · rw [List.filterMap_cons, hFc, List.filter_cons]
      have he : e.ciudad = c := hkey _ _ hFc
      have hrest : (ks.filterMap F).filter (fun x => x.ciudad == c) = [] := by
        rw [List.filter_eq_nil_iff]
        intro x hx
        obtain ⟨c', hc', hFc'⟩ := List.mem_filterMap.mp hx
        have hxc : x.ciudad = c' := hkey _ _ hFc'
        have hne : c' ≠ c := fun hcc =>
          (List.nodup_cons.mp hnd).1 (hcc ▸ hc')
        simp [hxc, hne]
      simp [he, hrest]
    · have hck : c ≠ k := fun h =>
        (List.nodup_cons.mp hnd).1 (h ▸ hcks)
      rw [List.filterMap_cons]
      rcases hFk : F k with _ | ek
      · exact ih (List.nodup_cons.mp hnd).2 hcks hFc
      · rw [List.filter_cons]
        have hek : (ek.ciudad == c) = false := by
          have h1 := hkey _ _ hFk
          simp [h1, Ne.symm hck]
        rw [hek]
        simp only [Bool.false_eq_true, if_false]
        exact ih (List.nodup_cons.mp hnd).2 hcks hFc

theorem cityKeys_nodup (rows : List Reading) : (cityKeys rows).Nodup :=
  ((List.perm_insertionSort _ _).nodup_iff).mpr (List.nodup_dedup _)

theorem mem_cityKeys {rows : List Reading} {c : String} :
    c ∈ cityKeys rows ↔ c ∈ rows.map (·.ciudad) := by
  rw [cityKeys, (List.perm_insertionSort _ _).mem_iff, List.mem_dedup]

/-- Two readings of one city for the C8 counterexample: the later row has
a null AQI. -/
def c8Rows : List Reading :=
  [{ id := 1, fecha := 1, ciudad := "Austin", estado := "TX",
     contaminante := "O3", latitud := 30, longitud := -97,
     aqi := some 50, categoria := some "Good" },
   { id := 2, fecha := 2, ciudad := "Austin", estado := "TX",
     contaminante := "O3", latitud := 30, longitud := -97,
     aqi := none, categoria := some "Good" }]

/-- C8 counterexample: with a null AQI on the max-timestamp row,
`groupby('ciudad').last()` mixes columns of different rows — the snapshot
entry takes its AQI (50) from the older row and its timestamp (2) from
the newer one, so it is not any input reading, against the claim that the
snapshot contains "exactly one reading" of the city. -/
theorem C8_latest_per_city_counterexample :
    df_map c8Rows =
      [{ id := 2, fecha := 2, ciudad := "Austin", estado := "TX",
         contaminante := "O3", latitud := 30, longitud := -97,
         aqi := some 50, categoria := some "Good" }]
    ∧ ({ id := 2, fecha := 2, ciudad := "Austin", estado := "TX",
         contaminante := "O3", latitud := 30, longitud := -97,
         aqi := some 50, categoria := some "Good" } : Reading) ∉ c8Rows := by
  constructor
  · rfl
  · decide

/-- C8 (amended): for each city present, the snapshot has exactly one
entry; its timestamp is the maximum over that city's readings and is
attained; its AQI, when non-null, comes from one of that city's readings
(the last one, in the stable ascending order, whose AQI is non-null —
pandas `last()` takes the per-column last non-null value); and when every
reading of the city has non-null AQI and category the entry is exactly
the city's maximal-timestamp reading that comes last in the stable
ascending order, in particular an input reading. -/
theorem C8_latest_per_city (rows : List Reading) (c : String)
    (hc : c ∈ rows.map (·.ciudad)) :
    ∃ e, (df_map rows).filter (fun x => x.ciudad == c) = [e]
      ∧ (∀ r ∈ rows, r.ciudad = c → r.fecha ≤ e.fecha)
      ∧ (∃ r ∈ rows, r.ciudad = c ∧ r.fecha = e.fecha)
      ∧ (e.aqi.isSome → ∃ r ∈ rows, r.ciudad = c ∧ r.aqi = e.aqi)
      ∧ ((∀ r ∈ rows, r.ciudad = c → r.aqi.isSome ∧ r.categoria.isSome) →
          e ∈ rows ∧ e.ciudad = c) := by
  obtain ⟨r0, hr0c, hr0mem⟩ := List.mem_map.mp hc
  have hr0g : r0 ∈ cityGroup rows c := mem_cityGroup.mpr ⟨hr0c, hr0mem⟩
  have hg_ne : cityGroup rows c ≠ [] := fun h => by
    rw [h] at hr0g; cases hr0g
  obtain ⟨last, hlast⟩ : ∃ l, (cityGroup rows c).getLast? = some l := by
    rcases h : (cityGroup rows c).getLast? with _ | l
    · exact absurd (List.getLast?_eq_none_iff.mp h) hg_ne
    · exact ⟨l, rfl⟩
  have hlast_rows := mem_cityGroup.mp (List.mem_of_getLast?_eq_some hlast)
  have hgl : groupLast (cityGroup rows c) =
      some { last with
        aqi := ((cityGroup rows c).filterMap (·.aqi)).getLast?
        categoria :=
          ((cityGroup rows c).filterMap (·.categoria)).getLast? } := by
    unfold groupLast
    rw [hlast]
  refine ⟨{ last with
      aqi := ((cityGroup rows c).filterMap (·.aqi)).getLast?
      categoria :=
        ((cityGroup rows c).filterMap (·.categoria)).getLast? },
    ?_, ?_, ?_, ?_, ?_⟩
  · exact filter_filterMap_keys (fun c' e' h' => groupLast_ciudad h')
      (cityKeys_nodup rows) (mem_cityKeys.mpr hc) hgl
  · intro r hr hrc
    show r.fecha ≤ last.fecha
    exact le_getLast_of_pairwise (cityGroup_sorted rows c)
      (mem_cityGroup.mpr ⟨hr, hrc⟩) hlast
  · exact ⟨last, hlast_rows.1, hlast_rows.2, rfl⟩
  · intro hsome
    obtain ⟨q, hq⟩ := Option.isSome_iff_exists.mp hsome
    have hmemq : q ∈ (cityGroup rows c).filterMap (·.aqi) :=
      List.mem_of_getLast?_eq_some hq
    obtain ⟨r, hrg, hra⟩ := List.mem_filterMap.mp hmemq
    have hrr := mem_cityGroup.mp hrg
    exact ⟨r, hrr.1, hrr.2, by rw [hra, hq]⟩
  · intro hall
    have h1 := getLast?_filterMap_of_isSome (·.aqi) (cityGroup rows c)
      (fun x hx =>
        (hall x (mem_cityGroup.mp hx).1 (mem_cityGroup.mp hx).2).1)
    have h2 := getLast?_filterMap_of_isSome (·.categoria) (cityGroup rows c)
      (fun x hx =>
        (hall x (mem_cityGroup.mp hx).1 (mem_cityGroup.mp hx).2).2)
    rw [hlast] at h1 h2
    simp only [Option.bind_eq_bind, Option.some_bind] at h1 h2
    rw [h1, h2]
    have heta : { last with aqi := last.aqi, categoria := last.categoria }
        = last := rfl
    rw [heta]
    exact ⟨hlast_rows.1, hlast_rows.2⟩

/-- Witness for C8 (amended) on `exRowsC3` at city "Austin". -/
theorem C8_latest_per_city_witness :
    ∃ e, (df_map exRowsC3).filter (fun x => x.ciudad == "Austin") = [e]
      ∧ (∀ r ∈ exRowsC3, r.ciudad = "Austin" → r.fecha ≤ e.fecha)
      ∧ (∃ r ∈ exRowsC3, r.ciudad = "Austin" ∧ r.fecha = e.fecha)
      ∧ (e.aqi.isSome →
          ∃ r ∈ exRowsC3, r.ciudad = "Austin" ∧ r.aqi = e.aqi)
      ∧ ((∀ r ∈ exRowsC3, r.ciudad = "Austin" →
            r.aqi.isSome ∧ r.categoria.isSome) →
          e ∈ exRowsC3 ∧ e.ciudad = "Austin") :=
  C8_latest_per_city exRowsC3 "Austin" (by decide)

end AirQuality
